import Mathlib

/-!
Shallow embedding of the seeding core of the healthcare-ecosystem
repository (`app_core/seed.py` and the table schema of `app_core/db.py`),
together with theorems settling the specification claims about it.

Modelling conventions:
* Python/NumPy floats are modelled as rationals (`ℚ`); `np.round(x, n)` is
  modelled as rounding `x * 10 ^ n` to the nearest integer.
* The NumPy `Generator` (`np.random.default_rng(seed)`) is modelled as a
  deterministic stream of 64-bit words produced by a linear congruential
  step from the seed.  The model is faithful in the respects the claims
  depend on: the stream is a pure function of the seed, one word is
  consumed per draw, `uniform a b` lands in `[a, b)` and
  `integers lo hi` lands in `[lo, hi)`.
* The module-level `fake = Faker()` instance is created without a seed and
  therefore draws from ambient random state that is not derived from the
  `seed_core` argument.  It is modelled as an explicit ambient state: an
  arbitrary stream of names together with a position that advances on
  every `fake.city()` / `fake.company()` call.
* SQL tables are lists of row structures; `INSERT` appends rows in order.
  Auto-increment surrogate ids are modelled for the tables whose ids are
  read back by the seeder (locations, items, suppliers): rows inserted
  into an empty table receive ids 1, 2, 3, ….  The surrogate ids of the
  other tables are never read and are omitted.
* `datetime.date` values are modelled as day numbers counted from
  0000-03-01 of the proleptic Gregorian calendar (every real
  `date.today()` is a positive such number).  `date.replace(day=1)` and
  `timedelta` arithmetic are modelled on day numbers; the day-of-month
  function follows the century / 4-year-block / year decomposition used by
  CPython's `datetime` module.
-/

namespace Healthcare

/-! ### Rounding and clipping -/

/-- Model of `np.round(x, n)`: round `x` to `n` decimal places. -/
def roundDp (n : ℕ) (x : ℚ) : ℚ := (round (x * 10 ^ n) : ℤ) / 10 ^ n

/-- Model of `np.clip(x, lo, hi)`. -/
def clip (x lo hi : ℚ) : ℚ := min (max x lo) hi

/-! ### Pseudo-random generator model -/

/-- State of the single explicit pseudo-random generator
(`rng = np.random.default_rng(seed)`), modelled as a 64-bit word. -/
structure Rng where
  state : ℕ
deriving Repr, DecidableEq

/-- One 64-bit linear congruential step of the generator model. -/
def lcg (s : ℕ) : ℕ := (6364136223846793005 * s + 1442695040888963407) % 2 ^ 64

/-- Model of `np.random.default_rng(seed)`. -/
def default_rng (seed : ℕ) : Rng := ⟨lcg (seed % 2 ^ 64)⟩

/-- Draw one 64-bit word and advance the generator. -/
def Rng.next (r : Rng) : ℕ × Rng := (lcg r.state, ⟨lcg r.state⟩)

/-- Model of `rng.uniform(a, b)`: a draw in `[a, b)` for `a < b`. -/
def Rng.uniform (r : Rng) (a b : ℚ) : ℚ × Rng :=
  let p := r.next
  (a + (b - a) * ((p.1 % 2 ^ 53 : ℕ) : ℚ) / 2 ^ 53, p.2)

/-- Model of `rng.uniform()` with no arguments: a draw in `[0, 1)`. -/
def Rng.uniform01 (r : Rng) : ℚ × Rng := r.uniform 0 1

/-- Model of `rng.integers(lo, hi)`: an integer draw in `[lo, hi)` for
`lo < hi`. -/
def Rng.integers (r : Rng) (lo hi : ℤ) : ℤ × Rng :=
  let p := r.next
  (lo + ((p.1 % (hi - lo).toNat : ℕ) : ℤ), p.2)

/-- Model of `rng.normal(mean, sd)`: a deterministic draw from the word
stream (no claim constrains the distribution of the normal draws). -/
def Rng.normal (r : Rng) (mean sd : ℚ) : ℚ × Rng :=
  let p := r.next
  (mean + sd * (((p.1 % 2 ^ 53 : ℕ) : ℚ) / 2 ^ 52 - 1), p.2)

/-! ### Ambient Faker state -/

/-- Ambient state of the module-level `fake = Faker()` instance: an
arbitrary stream of generated names and the number of draws made so far.
The stream is not derived from the `seed_core` seed. -/
structure FakerState where
  names : ℕ → String
  pos : ℕ

/-- Model of one `fake.city()` / `fake.company()` call: consume the next
name of the ambient stream. -/
def FakerState.draw (f : FakerState) : String × FakerState :=
  (f.names f.pos, ⟨f.names, f.pos + 1⟩)

/-! ### Table rows and the store -/

/-- Row of the `locations` table. -/
structure LocationRow where
  id : ℕ
  name : String
  region : Option String
deriving Repr, DecidableEq

/-- Row of the `location_geo` table (surrogate id omitted, never read). -/
structure GeoRow where
  location_id : ℕ
  lat : ℚ
  lon : ℚ
deriving Repr, DecidableEq

/-- Row of the `items` table. -/
structure ItemRow where
  id : ℕ
  name : String
  min_stock : ℤ
  cost_thb : ℤ
deriving Repr, DecidableEq

/-- Row of the `inventory` table (surrogate id omitted, never read). -/
structure InventoryRow where
  location_id : ℕ
  item_id : ℕ
  current_stock : ℤ
deriving Repr, DecidableEq

/-- Row of the `suppliers` table. -/
structure SupplierRow where
  id : ℕ
  name : String
deriving Repr, DecidableEq

/-- Row of the `supplier_metrics` table (surrogate id omitted, never
read). -/
structure MetricRow where
  supplier_id : ℕ
  on_time_pct : ℚ
  defect_rate_pct : ℚ
  lead_time_days : ℚ
  performance_score : ℚ
deriving Repr, DecidableEq

/-- Row of the `poct_tests` table (surrogate id omitted, never read);
`test_date` is a day number. -/
structure PoctRow where
  location_id : ℕ
  test_date : ℕ
  hba1c_result : ℚ
deriving Repr, DecidableEq

/-- The relational store: the tables touched by the seeding core. -/
structure Store where
  locations : List LocationRow
  location_geo : List GeoRow
  items : List ItemRow
  inventory : List InventoryRow
  suppliers : List SupplierRow
  supplier_metrics : List MetricRow
  poct_tests : List PoctRow
deriving Repr, DecidableEq

/-- A freshly created empty store (`init_db` on a fresh file). -/
def Store.empty : Store := ⟨[], [], [], [], [], [], []⟩

/-! ### Calendar model

Day numbers count days since 0000-03-01 (proleptic Gregorian).  The
day-of-month function uses the 400-year era / century / 4-year block /
year decomposition, as CPython's `datetime` does. -/

/-- Century index (0–3) of a day-of-era. -/
def cOf (doe : ℕ) : ℕ := min (doe / 36524) 3

/-- Day offset within the century. -/
def uOf (doe : ℕ) : ℕ := doe - 36524 * cOf doe

/-- 4-year block index (0–24) within the century. -/
def jOf (doe : ℕ) : ℕ := uOf doe / 1461

/-- Day offset within the 4-year block. -/
def vOf (doe : ℕ) : ℕ := uOf doe - 1461 * jOf doe

/-- Year index (0–3) within the 4-year block. -/
def iOf (doe : ℕ) : ℕ := min (vOf doe / 365) 3

/-- Day-of-year (March-based, 0–365) of a day-of-era. -/
def doyOfE (doe : ℕ) : ℕ := vOf doe - 365 * iOf doe

/-- Day-of-year (March-based) of a day number. -/
def doyOf (z : ℕ) : ℕ := doyOfE (z % 146097)

/-- Day-of-month (1–31) from a March-based day-of-year. -/
def Fdom (doy : ℕ) : ℕ := doy - (153 * ((5 * doy + 2) / 153) + 2) / 5 + 1

/-- Day-of-month (1–31) of a day number; models `date.day`. -/
def domOf (z : ℕ) : ℕ := Fdom (doyOf z)

/-- Model of `date.replace(day=1)`: the first day of the month of `z`. -/
def firstOfMonth (z : ℕ) : ℕ := z - (domOf z - 1)

/-- Day number of the proleptic Gregorian date `y-m-d` (valid for
`1 ≤ m ≤ 12`; counts days since 0000-03-01). -/
def daysFromCivil (y m d : ℕ) : ℕ :=
  let yy := if m ≤ 2 then y - 1 else y
  let mp := if m ≤ 2 then m + 9 else m - 3
  365 * yy + yy / 4 - yy / 100 + yy / 400 + (153 * mp + 2) / 5 + d - 1

end Healthcare

namespace Healthcare

/-! ### The seeding core (`app_core/seed.py`) -/

/-- The fixed list of named base locations (`base_locations`). -/
def base_locations : List String :=
  ["Bangkok Central", "Chiang Mai North", "Phuket South",
   "Pattaya East", "Khon Kaen Northeast", "Hat Yai Deep South"]

/-- The fixed item catalog (`inventory_items`): name, `min_stock`,
`cost_thb`. -/
def inventory_items : List (String × ℤ × ℤ) :=
  [("HbA1c Test Strips", 200, 2500), ("Control Solutions", 50, 150),
   ("Lancets", 500, 800), ("Cartridges", 100, 1200),
   ("Quality Controls", 75, 450)]

/-- The `while len(names) < num_locations` padding loop: append
`"Branch {len(names)+1} - {fake.city()}"` until the list reaches
`num_locations` names. -/
def padNames (num : ℕ) (names : List String) (fk : FakerState) :
    List String × FakerState :=
  if names.length < num then
    padNames num
      (names ++ ["Branch " ++ toString (names.length + 1) ++ " - " ++ fk.draw.1])
      fk.draw.2
  else (names, fk)
termination_by num - names.length
decreasing_by
  simp only [List.length_append, List.length_cons, List.length_nil]
  omega

/-- Geo-coordinate generation: one `(lat, lon)` pair per location id,
`lat = round(rng.uniform(5.6, 20.5), 6)`,
`lon = round(rng.uniform(97.4, 105.6), 6)`. -/
def genGeo (rng : Rng) : List ℕ → List GeoRow × Rng
  | [] => ([], rng)
  | lid :: rest =>
    let p1 := rng.uniform (5.6 : ℚ) (20.5 : ℚ)
    let lat := roundDp 6 p1.1
    let p2 := p1.2.uniform (97.4 : ℚ) (105.6 : ℚ)
    let lon := roundDp 6 p2.1
    let pr := genGeo p2.2 rest
    (⟨lid, lat, lon⟩ :: pr.1, pr.2)

/-- Inner inventory loop: one stock draw per item for a fixed location,
`current = rng.integers(max(0, min_stock - 120), min_stock + 300)`,
stored as `max(0, current)`. -/
def genInvForLoc (rng : Rng) (lid : ℕ) : List (ℕ × ℤ) → List InventoryRow × Rng
  | [] => ([], rng)
  | (iid, ms) :: rest =>
    let p := rng.integers (max 0 (ms - 120)) (ms + 300)
    let pr := genInvForLoc p.2 lid rest
    (⟨lid, iid, max 0 p.1⟩ :: pr.1, pr.2)

/-- Outer inventory loop over the locations × items cross product. -/
def genInv (rng : Rng) (itemData : List (ℕ × ℤ)) :
    List ℕ → List InventoryRow × Rng
  | [] => ([], rng)
  | lid :: rest =>
    let p := genInvForLoc rng lid itemData
    let pr := genInv p.2 itemData rest
    (p.1 ++ pr.1, pr.2)

/-- Supplier name generation: `n` `fake.company()` draws from the ambient
Faker state. -/
def genSupplierNames (fk : FakerState) : ℕ → List String × FakerState
  | 0 => ([], fk)
  | n + 1 =>
    let p := fk.draw
    let pr := genSupplierNames p.2 n
    (p.1 :: pr.1, pr.2)

/-- Supplier metric generation: per supplier id draw
`on_time ~ round(uniform(88, 100), 1)`,
`defect ~ round(uniform(0.2, 2.5), 2)`,
`lead ~ round(uniform(2, 9), 1)` and store
`performance_score = round(clip(0.7*on_time - 8*defect - 1.5*lead + 30, 0, 100), 1)`. -/
def genMetrics (rng : Rng) : List ℕ → List MetricRow × Rng
  | [] => ([], rng)
  | sid :: rest =>
    let p1 := rng.uniform 88 100
    let on_time := roundDp 1 p1.1
    let p2 := p1.2.uniform (0.2 : ℚ) (2.5 : ℚ)
    let defect := roundDp 2 p2.1
    let p3 := p2.2.uniform 2 9
    let lead := roundDp 1 p3.1
    let score := clip (0.7 * on_time - 8 * defect - 1.5 * lead + 30) 0 100
    let pr := genMetrics p3.2 rest
    (⟨sid, on_time, defect, lead, roundDp 1 score⟩ :: pr.1, pr.2)

/-- One day's POCT tests: `daily_tests` draws of
`round(rng.normal(6.2, 1.0), 2)`. -/
def genTests (lid dateN : ℕ) : ℕ → Rng → List PoctRow × Rng
  | 0, rng => ([], rng)
  | k + 1, rng =>
    let p := rng.normal (6.2 : ℚ) 1
    let pr := genTests lid dateN k p.2
    (⟨lid, dateN, roundDp 2 p.1⟩ :: pr.1, pr.2)

/-- The day loop of a month: for each listed day offset, with probability
`rng.uniform() < 0.5` the day is active and receives
`rng.integers(1, 6)` tests. -/
def genDays (lid monthBase : ℕ) : List ℕ → Rng → List PoctRow × Rng
  | [], rng => ([], rng)
  | d :: rest, rng =>
    let p := rng.uniform01
    if p.1 < 1 / 2 then
      let pk := p.2.integers 1 6
      let pt := genTests lid (monthBase + d) pk.1.toNat pk.2
      let pr := genDays lid monthBase rest pt.2
      (pt.1 ++ pr.1, pr.2)
    else
      genDays lid monthBase rest p.2

/-- The month loop: `month_start = start.replace(day=1) + 30*month_offset`,
then the first 28 days of the synthetic month. -/
def genMonths (lid start : ℕ) : List ℕ → Rng → List PoctRow × Rng
  | [], rng => ([], rng)
  | m :: rest, rng =>
    let monthBase := firstOfMonth start + 30 * m
    let p := genDays lid monthBase (List.range 28) rng
    let pr := genMonths lid start rest p.2
    (p.1 ++ pr.1, pr.2)

/-- The location loop of the POCT step: 12 synthetic months per location. -/
def genPoct (start : ℕ) : List ℕ → Rng → List PoctRow × Rng
  | [], rng => ([], rng)
  | lid :: rest, rng =>
    let p := genMonths lid start (List.range 12) rng
    let pr := genPoct start rest p.2
    (p.1 ++ pr.1, pr.2)

/-- Chunked insertion of the POCT rows
(`for i in range(0, len(rows), chunk): conn.execute(insert(...), rows[i:i+chunk])`):
each batch is appended to the table in order. -/
def insertBatches (chunk : ℕ) (table rows : List PoctRow) : List PoctRow :=
  (List.range' 0 ((rows.length + chunk - 1) / chunk) chunk).foldl
    (fun acc i => acc ++ ((rows.drop i).take chunk)) table

/-- Modelled from the spec for the refinement comparison: inserting all
generated POCT rows in one single operation. -/
def insertAllAtOnce (table rows : List PoctRow) : List PoctRow := table ++ rows

end Healthcare

namespace Healthcare

/-- Location rows built from a list of names, ids assigned 1, 2, … by the
empty-table auto-increment. -/
def mkLocations (names : List String) : List LocationRow :=
  names.enum.map (fun p => (⟨p.1 + 1, p.2, none⟩ : LocationRow))

/-- Item rows built from the fixed catalog, ids 1–5. -/
def mkItems : List ItemRow :=
  inventory_items.enum.map
    (fun p => (⟨p.1 + 1, p.2.1, p.2.2.1, p.2.2.2⟩ : ItemRow))

/-- Supplier rows built from a list of names, ids 1–8. -/
def mkSuppliers (names : List String) : List SupplierRow :=
  names.enum.map (fun q => (⟨q.1 + 1, q.2⟩ : SupplierRow))

/-- Locations step (`seed.py` lines 30–55): if the `locations` table is
empty, pad the base names to `num_locations`, insert them (ids 1, 2, …),
then insert one geo row per inserted location.  The geo insertion is
guarded by the emptiness of `locations`, not of `location_geo`. -/
def locationsStep (num : ℕ) (s : Store) (fk : FakerState) (rng : Rng) :
    Store × FakerState × Rng :=
  if s.locations.length = 0 then
    let pn := padNames num base_locations fk
    let locs := mkLocations pn.1
    let s1 : Store := { s with locations := s.locations ++ locs }
    let pg := genGeo rng (s1.locations.map (·.id))
    ({ s1 with location_geo := s1.location_geo ++ pg.1 }, pn.2, pg.2)
  else (s, fk, rng)

/-- Items step (`seed.py` lines 57–67): insert the fixed catalog
(ids 1–5) if the `items` table is empty. -/
def itemsStep (s : Store) : Store :=
  if s.items.length = 0 then
    { s with items := s.items ++ mkItems }
  else s

/-- Inventory step (`seed.py` lines 69–83): one stock draw per
location × item pair if the `inventory` table is empty. -/
def inventoryStep (s : Store) (rng : Rng) : Store × Rng :=
  if s.inventory.length = 0 then
    let p := genInv rng (s.items.map (fun it => (it.id, it.min_stock)))
      (s.locations.map (·.id))
    ({ s with inventory := s.inventory ++ p.1 }, p.2)
  else (s, rng)

/-- Suppliers step (`seed.py` lines 85–89): insert 8 suppliers with
`fake.company()` names (ids 1–8) if the `suppliers` table is empty. -/
def suppliersStep (s : Store) (fk : FakerState) : Store × FakerState :=
  if s.suppliers.length = 0 then
    let p := genSupplierNames fk 8
    ({ s with suppliers := s.suppliers ++ mkSuppliers p.1 }, p.2)
  else (s, fk)

/-- Supplier-metrics step (`seed.py` lines 91–108): one metric row per
supplier id if the `supplier_metrics` table is empty. -/
def metricsStep (s : Store) (rng : Rng) : Store × Rng :=
  if s.supplier_metrics.length = 0 then
    let p := genMetrics rng (s.suppliers.map (·.id))
    ({ s with supplier_metrics := s.supplier_metrics ++ p.1 }, p.2)
  else (s, rng)

/-- POCT step (`seed.py` lines 110–136): if the `poct_tests` table is
empty, generate 12 synthetic 30-day months of tests per location starting
from `start = today.replace(day=1) - timedelta(days=365)` and insert the
rows in batches of 5000. -/
def poctStep (today : ℕ) (s : Store) (rng : Rng) : Store × Rng :=
  if s.poct_tests.length = 0 then
    let start := firstOfMonth today - 365
    let p := genPoct start (s.locations.map (·.id)) rng
    if p.1.length ≠ 0 then
      ({ s with poct_tests := insertBatches 5000 s.poct_tests p.1 }, p.2)
    else (s, p.2)
  else (s, rng)

/-- The seeding entry point `seed_core(seed, num_locations)`.  `today` is
the day number returned by `date.today()`, and `fk` the ambient state of
the unseeded module-level `Faker()` instance; both are implicit inputs of
the Python function made explicit here.  Returns the updated store and
ambient Faker state. -/
def seed_core (seed : ℕ) (num_locations : ℕ) (today : ℕ) (fk : FakerState)
    (s : Store) : Store × FakerState :=
  let rng := default_rng seed
  let r1 := locationsStep num_locations s fk rng
  let s2 := itemsStep r1.1
  let r3 := inventoryStep s2 r1.2.2
  let r4 := suppliersStep r3.1 r1.2.1
  let r5 := metricsStep r4.1 r3.2
  let r6 := poctStep today r5.1 r5.2
  (r6.1, r4.2)

end Healthcare

namespace Healthcare

/-! ### Helper lemmas: rounding, clipping, generator ranges -/

theorem roundDp_bound (n : ℕ) (A B : ℤ) (x : ℚ)
    (hA : (A : ℚ) ≤ x * 10 ^ n) (hB : x * 10 ^ n ≤ (B : ℚ)) :
    (A : ℚ) / 10 ^ n ≤ roundDp n x ∧ roundDp n x ≤ (B : ℚ) / 10 ^ n := by
  have h1 : A ≤ round (x * 10 ^ n) := by
    rw [round_eq]
    exact Int.le_floor.mpr (by linarith)
  have h2 : round (x * 10 ^ n) ≤ B := by
    rw [round_eq]
    have : (⌊x * 10 ^ n + 1 / 2⌋ : ℤ) < B + 1 := Int.floor_lt.mpr (by push_cast; linarith)
    omega
  constructor
  · rw [roundDp]
    gcongr
  · rw [roundDp]
    gcongr

theorem roundDp_roundDp (n : ℕ) (x : ℚ) : roundDp n (roundDp n x) = roundDp n x := by
  have hp : (10 : ℚ) ^ n ≠ 0 := by positivity
  rw [roundDp, roundDp, div_mul_cancel₀ _ hp, round_intCast]

theorem clip_bound (x lo hi : ℚ) (h : lo ≤ hi) : lo ≤ clip x lo hi ∧ clip x lo hi ≤ hi := by
  unfold clip
  constructor
  · exact le_min (le_max_right x lo) h
  · exact min_le_right _ _

theorem uniform_mem (r : Rng) (a b : ℚ) (h : a < b) :
    a ≤ (r.uniform a b).1 ∧ (r.uniform a b).1 < b := by
  have hk0 : (0 : ℚ) ≤ ((lcg r.state % 2 ^ 53 : ℕ) : ℚ) := by positivity
  have hklt : ((lcg r.state % 2 ^ 53 : ℕ) : ℚ) < 2 ^ 53 := by
    exact_mod_cast Nat.mod_lt _ (show 0 < 2 ^ 53 by norm_num)
  have h1 : (0 : ℚ) ≤ (b - a) * ((lcg r.state % 2 ^ 53 : ℕ) : ℚ) / 2 ^ 53 := by
    apply div_nonneg _ (by norm_num)
    exact mul_nonneg (by linarith) hk0
  have h2 : (b - a) * ((lcg r.state % 2 ^ 53 : ℕ) : ℚ) / 2 ^ 53 < b - a := by
    rw [div_lt_iff₀ (show (0 : ℚ) < 2 ^ 53 by norm_num)]
    have := mul_lt_mul_of_pos_left hklt (show (0 : ℚ) < b - a by linarith)
    linarith
  simp only [Rng.uniform, Rng.next]
  constructor
  · linarith
  · linarith

theorem integers_mem (r : Rng) (lo hi : ℤ) (h : lo < hi) :
    lo ≤ (r.integers lo hi).1 ∧ (r.integers lo hi).1 < hi := by
  have hm : lcg r.state % (hi - lo).toNat < (hi - lo).toNat :=
    Nat.mod_lt _ (by omega)
  simp only [Rng.integers, Rng.next]
  omega

end Healthcare

namespace Healthcare

/-! ### Helper lemmas: the calendar -/

/-- Characterization of a valid era / century / block / year / day-of-year
decomposition of a day-of-era. -/
def ValidDecomp (c j i doy : ℕ) : Prop :=
  c ≤ 3 ∧ j ≤ 24 ∧ i ≤ 3 ∧ doy ≤ 365 ∧ (doy = 365 → i = 3 ∧ (j ≤ 23 ∨ c = 3))

theorem decomp_valid (doe : ℕ) (h : doe ≤ 146096) :
    doe = 36524 * cOf doe + 1461 * jOf doe + 365 * iOf doe + doyOfE doe ∧
    ValidDecomp (cOf doe) (jOf doe) (iOf doe) (doyOfE doe) := by
  simp only [cOf, uOf, jOf, vOf, iOf, doyOfE, ValidDecomp]
  omega

theorem decomp_unique (c j i doy c' j' i' doy' : ℕ)
    (h1 : ValidDecomp c j i doy) (h2 : ValidDecomp c' j' i' doy')
    (he : 36524 * c + 1461 * j + 365 * i + doy
        = 36524 * c' + 1461 * j' + 365 * i' + doy') :
    c = c' ∧ j = j' ∧ i = i' ∧ doy = doy' := by
  obtain ⟨hc, hj, hi, hd, hs⟩ := h1
  obtain ⟨hc', hj', hi', hd', hs'⟩ := h2
  have hR : 1461 * j + 365 * i + doy ≤ 36523 ∨ (j = 24 ∧ i = 3 ∧ doy = 365) := by
    omega
  have hR' : 1461 * j' + 365 * i' + doy' ≤ 36523 ∨ (j' = 24 ∧ i' = 3 ∧ doy' = 365) := by
    omega
  have hcc : c = c' := by omega
  subst hcc
  have hjj : j = j' := by omega
  subst hjj
  omega

/-- The day-of-year determines the other components given the total:
identify the division-based decomposition with any valid candidate. -/
theorem doyOfE_eq_of_valid (doe c j i doy : ℕ) (h : doe ≤ 146096)
    (hv : ValidDecomp c j i doy)
    (he : doe = 36524 * c + 1461 * j + 365 * i + doy) :
    doyOfE doe = doy := by
  obtain ⟨hsum, hvalid⟩ := decomp_valid doe h
  exact (decomp_unique _ _ _ _ _ _ _ _ hvalid hv (by omega)).2.2.2

theorem doyOfE_le (doe : ℕ) (h : doe ≤ 146096) : doyOfE doe ≤ 365 :=
  (decomp_valid doe h).2.2.2.2.1

theorem doyOf_le (z : ℕ) : doyOf z ≤ 365 := by
  have : z % 146097 ≤ 146096 := by omega
  exact doyOfE_le _ this

theorem Fdom_pos (doy : ℕ) : 1 ≤ Fdom doy := by
  simp only [Fdom]
  omega

theorem Fdom_le (doy : ℕ) (h : doy ≤ 365) : Fdom doy ≤ 31 := by
  simp only [Fdom]
  omega

theorem Fdom_succ_of_one (doy : ℕ) (h : doy ≤ 365) (h1 : Fdom doy = 1) :
    doy ≤ 337 ∧ Fdom (doy + 1) = 2 := by
  simp only [Fdom] at h1 ⊢
  have hm11 : (5 * doy + 2) / 153 ≤ 11 := by omega
  generalize hm : (5 * doy + 2) / 153 = m at h1 hm11
  interval_cases m <;> omega

theorem Fdom_shift_to_one (doy : ℕ) (h : doy ≤ 365) :
    Fdom doy - 1 ≤ doy ∧ Fdom (doy - (Fdom doy - 1)) = 1 := by
  simp only [Fdom]
  have hm11 : (5 * doy + 2) / 153 ≤ 11 := by omega
  generalize hm : (5 * doy + 2) / 153 = m at hm11
  interval_cases m <;> omega

theorem domOf_pos (z : ℕ) : 1 ≤ domOf z := Fdom_pos _

theorem domOf_le (z : ℕ) : domOf z ≤ 31 := Fdom_le _ (doyOf_le z)

/-- Subtracting at most the day-of-year from a day number shifts the
day-of-year by the same amount (stays within the same year). -/
theorem doyOf_sub (z k : ℕ) (hk : k ≤ doyOf z) : doyOf (z - k) = doyOf z - k := by
  have hdoe : z % 146097 ≤ 146096 := by omega
  obtain ⟨hsum, hc, hj, hi, hd, hs⟩ := decomp_valid (z % 146097) hdoe
  have hk' : k ≤ doyOfE (z % 146097) := hk
  have hmod : (z - k) % 146097 = z % 146097 - k := by omega
  have hcand : ValidDecomp (cOf (z % 146097)) (jOf (z % 146097)) (iOf (z % 146097))
      (doyOfE (z % 146097) - k) := by
    refine ⟨hc, hj, hi, by omega, fun h365 => hs (by omega)⟩
  unfold doyOf
  rw [hmod]
  exact doyOfE_eq_of_valid _ _ _ _ _ (by omega) hcand (by omega)

/-- The first day of a month has day-of-month 1. -/
theorem domOf_firstOfMonth (z : ℕ) : domOf (firstOfMonth z) = 1 := by
  obtain ⟨hle, hone⟩ := Fdom_shift_to_one (doyOf z) (doyOf_le z)
  have hshift : doyOf (z - (domOf z - 1)) = doyOf z - (domOf z - 1) :=
    doyOf_sub z (domOf z - 1) (by simpa [domOf] using hle)
  unfold firstOfMonth
  show Fdom (doyOf (z - (domOf z - 1))) = 1
  rw [hshift]
  simpa [domOf] using hone

/-- Day 365 days before a month-first lands on day-of-month 1 or 2 (2 when
the span crosses a leap day). -/
theorem domOf_sub365 (z : ℕ) (hz : 365 ≤ z) (h1 : domOf z = 1) :
    domOf (z - 365) ≤ 2 := by
  have hdoe : z % 146097 ≤ 146096 := by omega
  obtain ⟨hsum, hc, hj, hi, hd, hs⟩ := decomp_valid (z % 146097) hdoe
  simp only [domOf, doyOf] at h1
  have hms : doyOfE (z % 146097) ≤ 337 ∧ Fdom (doyOfE (z % 146097) + 1) = 2 :=
    Fdom_succ_of_one _ (doyOfE_le _ hdoe) h1
  rcases Nat.lt_or_ge (z % 146097) 365 with hlt | hge
  · -- era wrap: the previous year is year 399 of the previous era, a leap year
    have hz146097 : 146097 ≤ z := by omega
    have hmod : (z - 365) % 146097 = z % 146097 + 145732 := by omega
    have hzero : cOf (z % 146097) = 0 ∧ jOf (z % 146097) = 0 ∧ iOf (z % 146097) = 0 := by
      omega
    have hdoy : doyOfE (z % 146097) = z % 146097 := by omega
    have hcand : ValidDecomp 3 24 3 (doyOfE (z % 146097) + 1) :=
      ⟨by omega, by omega, by omega, by omega, by omega⟩
    have : doyOfE ((z - 365) % 146097) = doyOfE (z % 146097) + 1 := by
      rw [hmod]
      exact doyOfE_eq_of_valid _ _ _ _ _ (by omega) hcand (by omega)
    unfold domOf doyOf
    rw [this]
    omega
  · -- no era wrap
    have hmod : (z - 365) % 146097 = z % 146097 - 365 := by omega
    rcases Nat.lt_or_ge (iOf (z % 146097)) 1 with hi0 | hi1
    · rcases Nat.lt_or_ge (jOf (z % 146097)) 1 with hj0 | hj1
      · -- i = 0, j = 0, c ≥ 1: previous year is the last year of the
        -- previous century, 365 days long
        have hc1 : 1 ≤ cOf (z % 146097) := by omega
        have hcand : ValidDecomp (cOf (z % 146097) - 1) 24 3 (doyOfE (z % 146097)) :=
          ⟨by omega, by omega, by omega, by omega, by omega⟩
        have : doyOfE ((z - 365) % 146097) = doyOfE (z % 146097) := by
          rw [hmod]
          exact doyOfE_eq_of_valid _ _ _ _ _ (by omega) hcand (by omega)
        unfold domOf doyOf
        rw [this]
        omega
      · -- i = 0, j ≥ 1: previous year is the leap year of the previous block
        have hcand : ValidDecomp (cOf (z % 146097)) (jOf (z % 146097) - 1) 3
            (doyOfE (z % 146097) + 1) :=
          ⟨by omega, by omega, by omega, by omega, by omega⟩
        have : doyOfE ((z - 365) % 146097) = doyOfE (z % 146097) + 1 := by
          rw [hmod]
          exact doyOfE_eq_of_valid _ _ _ _ _ (by omega) hcand (by omega)
        unfold domOf doyOf
        rw [this]
        omega
    · -- i ≥ 1: previous year is a 365-day year of the same block
      have hcand : ValidDecomp (cOf (z % 146097)) (jOf (z % 146097))
          (iOf (z % 146097) - 1) (doyOfE (z % 146097)) :=
        ⟨by omega, by omega, by omega, by omega, fun h365 => by omega⟩
      have : doyOfE ((z - 365) % 146097) = doyOfE (z % 146097) := by
        rw [hmod]
        exact doyOfE_eq_of_valid _ _ _ _ _ (by omega) hcand (by omega)
      unfold domOf doyOf
      rw [this]
      omega

/-- The POCT generation window: the base of the first synthetic month lies
within 396 days before `today`, and the last generated day does not exceed
`today`. -/
theorem poct_window (today : ℕ) (h : 731 ≤ today) :
    today - 396 ≤ firstOfMonth (firstOfMonth today - 365) ∧
    firstOfMonth (firstOfMonth today - 365) + 30 * 11 + 27 ≤ today := by
  have hf1 : today - 30 ≤ firstOfMonth today := by
    have := domOf_le today
    have := domOf_pos today
    unfold firstOfMonth
    omega
  have hf2 : firstOfMonth today ≤ today := by
    unfold firstOfMonth
    omega
  have hd1 : domOf (firstOfMonth today) = 1 := domOf_firstOfMonth today
  have h365 : 365 ≤ firstOfMonth today := by omega
  have hd2 : domOf (firstOfMonth today - 365) ≤ 2 := domOf_sub365 _ h365 hd1
  have hd2' : 1 ≤ domOf (firstOfMonth today - 365) := domOf_pos _
  unfold firstOfMonth at hf1 hf2 hd1 hd2 hd2' h365 ⊢
  omega

end Healthcare

namespace Healthcare

/-! ### Helper lemmas: the generators -/

theorem padNames_of_le (num : ℕ) (ns : List String) (fk : FakerState)
    (h : num ≤ ns.length) : padNames num ns fk = (ns, fk) := by
  unfold padNames
  rw [if_neg (by omega)]

theorem padNames_length_aux (fuel : ℕ) :
    ∀ (num : ℕ) (ns : List String) (fk : FakerState), num - ns.length ≤ fuel →
      ((padNames num ns fk).1).length = max num ns.length := by
  induction fuel with
  | zero =>
    intro num ns fk h
    rw [padNames_of_le num ns fk (by omega)]
    show ns.length = max num ns.length
    omega
  | succ fuel ih =>
    intro num ns fk h
    by_cases hlt : ns.length < num
    · rw [padNames, if_pos hlt]
      rw [ih num _ _
        (by simp only [List.length_append, List.length_cons, List.length_nil]; omega)]
      simp only [List.length_append, List.length_cons, List.length_nil]
      omega
    · rw [padNames_of_le num ns fk (by omega)]
      show ns.length = max num ns.length
      omega

theorem padNames_length (num : ℕ) (ns : List String) (fk : FakerState) :
    ((padNames num ns fk).1).length = max num ns.length :=
  padNames_length_aux (num - ns.length) num ns fk le_rfl

theorem foldl_chunks (c : ℕ) (rows : List PoctRow) :
    ∀ (n s : ℕ) (table : List PoctRow),
      (List.range' s n c).foldl (fun acc i => acc ++ ((rows.drop i).take c)) table
        = table ++ ((rows.drop s).take (n * c)) := by
  intro n
  induction n with
  | zero => simp
  | succ n ih =>
    intro s table
    rw [List.range'_succ, List.foldl_cons, ih]
    rw [List.append_assoc]
    congr 1
    rw [show (n + 1) * c = c + n * c by ring, List.take_add]
    congr 1
    rw [List.drop_drop]

theorem insertBatches_eq (table rows : List PoctRow) :
    insertBatches 5000 table rows = table ++ rows := by
  unfold insertBatches
  rw [foldl_chunks]
  congr 1
  rw [List.drop_zero]
  exact List.take_of_length_le (by omega)

theorem genGeo_keys (rng : Rng) (lids : List ℕ) :
    ((genGeo rng lids).1).map (·.location_id) = lids := by
  induction lids generalizing rng with
  | nil => simp [genGeo]
  | cons a t ih => simp [genGeo, ih]

theorem genGeo_length (rng : Rng) (lids : List ℕ) :
    ((genGeo rng lids).1).length = lids.length := by
  have := congrArg List.length (genGeo_keys rng lids)
  simpa using this

theorem roundDp_uniform_bound (r : Rng) (a b : ℚ) (A B : ℤ) (n : ℕ)
    (hab : a < b) (ha : (A : ℚ) = a * 10 ^ n) (hb : (B : ℚ) = b * 10 ^ n) :
    a ≤ roundDp n (r.uniform a b).1 ∧ roundDp n (r.uniform a b).1 ≤ b := by
  obtain ⟨h1, h2⟩ := uniform_mem r a b hab
  have hp : (0 : ℚ) < 10 ^ n := by positivity
  obtain ⟨h3, h4⟩ := roundDp_bound n A B (r.uniform a b).1
    (by rw [ha]; exact mul_le_mul_of_nonneg_right h1 hp.le)
    (by rw [hb]; exact mul_le_mul_of_nonneg_right h2.le hp.le)
  constructor
  · calc a = (A : ℚ) / 10 ^ n := by rw [ha]; field_simp
    _ ≤ _ := h3
  · calc roundDp n (r.uniform a b).1 ≤ (B : ℚ) / 10 ^ n := h4
    _ = b := by rw [hb]; field_simp

theorem genGeo_mem (rng : Rng) (lids : List ℕ) (r : GeoRow)
    (hr : r ∈ (genGeo rng lids).1) :
    ((5.6 : ℚ) ≤ r.lat ∧ r.lat ≤ 20.5 ∧ r.lat = roundDp 6 r.lat) ∧
    ((97.4 : ℚ) ≤ r.lon ∧ r.lon ≤ 105.6 ∧ r.lon = roundDp 6 r.lon) := by
  induction lids generalizing rng with
  | nil => simp [genGeo] at hr
  | cons a t ih =>
    simp only [genGeo, List.mem_cons] at hr
    rcases hr with hr | hr
    · subst hr
      obtain ⟨hl1, hl2⟩ := roundDp_uniform_bound rng (5.6 : ℚ) (20.5 : ℚ)
        5600000 20500000 6 (by norm_num) (by norm_num) (by norm_num)
      obtain ⟨ho1, ho2⟩ := roundDp_uniform_bound (rng.uniform (5.6 : ℚ) (20.5 : ℚ)).2
        (97.4 : ℚ) (105.6 : ℚ) 97400000 105600000 6 (by norm_num) (by norm_num)
        (by norm_num)
      exact ⟨⟨hl1, hl2, (roundDp_roundDp 6 _).symm⟩, ⟨ho1, ho2, (roundDp_roundDp 6 _).symm⟩⟩
    · exact ih _ hr

theorem genSupplierNames_length (fk : FakerState) (n : ℕ) :
    ((genSupplierNames fk n).1).length = n := by
  induction n generalizing fk with
  | zero => simp [genSupplierNames]
  | succ n ih => simp [genSupplierNames, ih]

theorem genMetrics_keys (rng : Rng) (sids : List ℕ) :
    ((genMetrics rng sids).1).map (·.supplier_id) = sids := by
  induction sids generalizing rng with
  | nil => simp [genMetrics]
  | cons a t ih => simp [genMetrics, ih]

theorem score_bound (x : ℚ) :
    0 ≤ roundDp 1 (clip x 0 100) ∧ roundDp 1 (clip x 0 100) ≤ 100 := by
  obtain ⟨h1, h2⟩ := clip_bound x 0 100 (by norm_num)
  obtain ⟨hb1, hb2⟩ := roundDp_bound 1 0 1000 (clip x 0 100)
    (by push_cast; linarith) (by push_cast; linarith)
  constructor
  · simpa using hb1
  · calc roundDp 1 (clip x 0 100) ≤ ((1000 : ℤ) : ℚ) / 10 ^ 1 := hb2
    _ = 100 := by norm_num

theorem genMetrics_mem (rng : Rng) (sids : List ℕ) (r : MetricRow)
    (hr : r ∈ (genMetrics rng sids).1) :
    r.performance_score =
      roundDp 1 (clip (0.7 * r.on_time_pct - 8 * r.defect_rate_pct
        - 1.5 * r.lead_time_days + 30) 0 100) ∧
    0 ≤ r.performance_score ∧ r.performance_score ≤ 100 := by
  induction sids generalizing rng with
  | nil => simp [genMetrics] at hr
  | cons a t ih =>
    simp only [genMetrics, List.mem_cons] at hr
    rcases hr with hr | hr
    · subst hr
      exact ⟨rfl, (score_bound _).1, (score_bound _).2⟩
    · exact ih _ hr

end Healthcare

namespace Healthcare

theorem genInvForLoc_keys (rng : Rng) (lid : ℕ) (itemData : List (ℕ × ℤ)) :
    ((genInvForLoc rng lid itemData).1).map (fun r => (r.location_id, r.item_id))
      = itemData.map (fun q => (lid, q.1)) := by
  induction itemData generalizing rng with
  | nil => simp [genInvForLoc]
  | cons a t ih => simp [genInvForLoc, ih]

theorem genInvForLoc_length (rng : Rng) (lid : ℕ) (itemData : List (ℕ × ℤ)) :
    ((genInvForLoc rng lid itemData).1).length = itemData.length := by
  have := congrArg List.length (genInvForLoc_keys rng lid itemData)
  simpa using this

theorem genInvForLoc_mem (rng : Rng) (lid : ℕ) (itemData : List (ℕ × ℤ))
    (r : InventoryRow) (hr : r ∈ (genInvForLoc rng lid itemData).1) :
    0 ≤ r.current_stock ∧ r.location_id = lid ∧
    ∃ q ∈ itemData, r.item_id = q.1 ∧ (-300 < q.2 →
      max 0 (q.2 - 120) ≤ r.current_stock ∧ r.current_stock < q.2 + 300) := by
  induction itemData generalizing rng with
  | nil => simp [genInvForLoc] at hr
  | cons a t ih =>
    simp only [genInvForLoc, List.mem_cons] at hr
    rcases hr with hr | hr
    · subst hr
      refine ⟨le_max_left 0 _, rfl, a, List.mem_cons_self a t, rfl, fun hgt => ?_⟩
      obtain ⟨hlo, hhi⟩ := integers_mem rng (max 0 (a.2 - 120)) (a.2 + 300) (by omega)
      constructor
      · exact le_trans hlo (le_max_right 0 _)
      · simp only
        omega
    · obtain ⟨h1, h2, q, hq, h3⟩ := ih _ hr
      exact ⟨h1, h2, q, List.mem_cons_of_mem a hq, h3⟩

theorem genInv_keys (rng : Rng) (itemData : List (ℕ × ℤ)) (lids : List ℕ) :
    ((genInv rng itemData lids).1).map (fun r => (r.location_id, r.item_id))
      = lids.flatMap (fun l => itemData.map (fun q => (l, q.1))) := by
  induction lids generalizing rng with
  | nil => simp [genInv]
  | cons a t ih => simp [genInv, genInvForLoc_keys, ih]

theorem genInv_length (rng : Rng) (itemData : List (ℕ × ℤ)) (lids : List ℕ) :
    ((genInv rng itemData lids).1).length = lids.length * itemData.length := by
  induction lids generalizing rng with
  | nil => simp [genInv]
  | cons a t ih =>
    simp only [genInv, List.length_append, genInvForLoc_length, ih,
      List.length_cons]
    ring

theorem genInv_mem (rng : Rng) (itemData : List (ℕ × ℤ)) (lids : List ℕ)
    (r : InventoryRow) (hr : r ∈ (genInv rng itemData lids).1) :
    0 ≤ r.current_stock ∧ r.location_id ∈ lids ∧
    ∃ q ∈ itemData, r.item_id = q.1 ∧ (-300 < q.2 →
      max 0 (q.2 - 120) ≤ r.current_stock ∧ r.current_stock < q.2 + 300) := by
  induction lids generalizing rng with
  | nil => simp [genInv] at hr
  | cons a t ih =>
    simp only [genInv, List.mem_append] at hr
    rcases hr with hr | hr
    · obtain ⟨h1, h2, hq⟩ := genInvForLoc_mem _ _ _ _ hr
      exact ⟨h1, h2 ▸ List.mem_cons_self a t, hq⟩
    · obtain ⟨h1, h2, hq⟩ := ih _ hr
      exact ⟨h1, List.mem_cons_of_mem a h2, hq⟩

theorem genTests_mem (lid dateN : ℕ) (k : ℕ) (rng : Rng) (r : PoctRow)
    (hr : r ∈ (genTests lid dateN k rng).1) :
    r.location_id = lid ∧ r.test_date = dateN := by
  induction k generalizing rng with
  | zero => simp [genTests] at hr
  | succ k ih =>
    simp only [genTests, List.mem_cons] at hr
    rcases hr with hr | hr
    · subst hr
      exact ⟨rfl, rfl⟩
    · exact ih _ hr

theorem genDays_mem (lid monthBase : ℕ) (ds : List ℕ) (rng : Rng) (r : PoctRow)
    (hr : r ∈ (genDays lid monthBase ds rng).1) :
    r.location_id = lid ∧ ∃ d ∈ ds, r.test_date = monthBase + d := by
  induction ds generalizing rng with
  | nil => simp [genDays] at hr
  | cons a t ih =>
    simp only [genDays] at hr
    by_cases hc : (rng.uniform01).1 < 1 / 2
    · rw [if_pos hc] at hr
      simp only [List.mem_append] at hr
      rcases hr with hr | hr
      · obtain ⟨h1, h2⟩ := genTests_mem _ _ _ _ _ hr
        exact ⟨h1, a, List.mem_cons_self a t, h2⟩
      · obtain ⟨h1, d, hd, h2⟩ := ih _ hr
        exact ⟨h1, d, List.mem_cons_of_mem a hd, h2⟩
    · rw [if_neg hc] at hr
      obtain ⟨h1, d, hd, h2⟩ := ih _ hr
      exact ⟨h1, d, List.mem_cons_of_mem a hd, h2⟩

theorem genMonths_mem (lid start : ℕ) (ms : List ℕ) (rng : Rng) (r : PoctRow)
    (hr : r ∈ (genMonths lid start ms rng).1) :
    r.location_id = lid ∧
    ∃ m ∈ ms, ∃ d < 28, r.test_date = firstOfMonth start + 30 * m + d := by
  induction ms generalizing rng with
  | nil => simp [genMonths] at hr
  | cons a t ih =>
    simp only [genMonths, List.mem_append] at hr
    rcases hr with hr | hr
    · obtain ⟨h1, d, hd, h2⟩ := genDays_mem _ _ _ _ _ hr
      rw [List.mem_range] at hd
      exact ⟨h1, a, List.mem_cons_self a t, d, hd, by omega⟩
    · obtain ⟨h1, m, hm, hrest⟩ := ih _ hr
      exact ⟨h1, m, List.mem_cons_of_mem a hm, hrest⟩

theorem genPoct_mem (start : ℕ) (lids : List ℕ) (rng : Rng) (r : PoctRow)
    (hr : r ∈ (genPoct start lids rng).1) :
    r.location_id ∈ lids ∧
    ∃ m < 12, ∃ d < 28, r.test_date = firstOfMonth start + 30 * m + d := by
  induction lids generalizing rng with
  | nil => simp [genPoct] at hr
  | cons a t ih =>
    simp only [genPoct, List.mem_append] at hr
    rcases hr with hr | hr
    · obtain ⟨h1, m, hm, hrest⟩ := genMonths_mem _ _ _ _ _ hr
      rw [List.mem_range] at hm
      exact ⟨h1 ▸ List.mem_cons_self a t, m, hm, hrest⟩
    · obtain ⟨h1, hrest⟩ := ih _ hr
      exact ⟨List.mem_cons_of_mem a h1, hrest⟩

end Healthcare

namespace Healthcare

/-! ### Helper lemmas: the seeding steps -/

theorem mkLocations_length (names : List String) :
    (mkLocations names).length = names.length := by
  simp [mkLocations]

theorem mkLocations_ids (names : List String) :
    (mkLocations names).map (·.id) = (List.range names.length).map (· + 1) := by
  unfold mkLocations
  rw [List.map_map]
  have : ((fun l : LocationRow => l.id) ∘ fun p : ℕ × String => (⟨p.1 + 1, p.2, none⟩ : LocationRow))
      = (fun i => i + 1) ∘ Prod.fst := rfl
  rw [this, ← List.map_map, List.enum_map_fst]

theorem mkSuppliers_ids (names : List String) :
    (mkSuppliers names).map (·.id) = (List.range names.length).map (· + 1) := by
  unfold mkSuppliers
  rw [List.map_map]
  have : ((fun x : SupplierRow => x.id) ∘ fun q : ℕ × String => (⟨q.1 + 1, q.2⟩ : SupplierRow))
      = (fun i => i + 1) ∘ Prod.fst := rfl
  rw [this, ← List.map_map, List.enum_map_fst]

theorem locationsStep_skip (num : ℕ) (s : Store) (fk : FakerState) (rng : Rng)
    (h : s.locations ≠ []) : locationsStep num s fk rng = (s, fk, rng) := by
  unfold locationsStep
  rw [if_neg (by simpa [List.length_eq_zero] using h)]

theorem locationsStep_items (num : ℕ) (s : Store) (fk : FakerState) (rng : Rng) :
    ((locationsStep num s fk rng).1).items = s.items := by
  unfold locationsStep
  split <;> rfl

theorem locationsStep_inventory (num : ℕ) (s : Store) (fk : FakerState) (rng : Rng) :
    ((locationsStep num s fk rng).1).inventory = s.inventory := by
  unfold locationsStep
  split <;> rfl

theorem locationsStep_suppliers (num : ℕ) (s : Store) (fk : FakerState) (rng : Rng) :
    ((locationsStep num s fk rng).1).suppliers = s.suppliers := by
  unfold locationsStep
  split <;> rfl

theorem locationsStep_metrics (num : ℕ) (s : Store) (fk : FakerState) (rng : Rng) :
    ((locationsStep num s fk rng).1).supplier_metrics = s.supplier_metrics := by
  unfold locationsStep
  split <;> rfl

theorem locationsStep_poct (num : ℕ) (s : Store) (fk : FakerState) (rng : Rng) :
    ((locationsStep num s fk rng).1).poct_tests = s.poct_tests := by
  unfold locationsStep
  split <;> rfl

theorem locationsStep_of_empty (num : ℕ) (s : Store) (fk : FakerState) (rng : Rng)
    (h : s.locations = []) :
    locationsStep num s fk rng =
      ({ s with
          locations := mkLocations (padNames num base_locations fk).1,
          location_geo := s.location_geo ++
            (genGeo rng ((mkLocations (padNames num base_locations fk).1).map (·.id))).1 },
        (padNames num base_locations fk).2, (genGeo rng
          ((mkLocations (padNames num base_locations fk).1).map (·.id))).2) := by
  unfold locationsStep
  rw [if_pos (by simp [h])]
  simp [h]

theorem itemsStep_skip (s : Store) (h : s.items ≠ []) : itemsStep s = s := by
  unfold itemsStep
  rw [if_neg (by simpa [List.length_eq_zero] using h)]

theorem itemsStep_of_empty (s : Store) (h : s.items = []) :
    itemsStep s = { s with items := mkItems } := by
  unfold itemsStep
  rw [if_pos (by simp [h])]
  simp [h]

theorem itemsStep_locations (s : Store) : (itemsStep s).locations = s.locations := by
  unfold itemsStep
  split <;> rfl

theorem itemsStep_geo (s : Store) : (itemsStep s).location_geo = s.location_geo := by
  unfold itemsStep
  split <;> rfl

theorem itemsStep_inventory (s : Store) : (itemsStep s).inventory = s.inventory := by
  unfold itemsStep
  split <;> rfl

theorem itemsStep_suppliers (s : Store) : (itemsStep s).suppliers = s.suppliers := by
  unfold itemsStep
  split <;> rfl

theorem itemsStep_metrics (s : Store) :
    (itemsStep s).supplier_metrics = s.supplier_metrics := by
  unfold itemsStep
  split <;> rfl

theorem itemsStep_poct (s : Store) : (itemsStep s).poct_tests = s.poct_tests := by
  unfold itemsStep
  split <;> rfl

theorem inventoryStep_skip (s : Store) (rng : Rng) (h : s.inventory ≠ []) :
    inventoryStep s rng = (s, rng) := by
  unfold inventoryStep
  rw [if_neg (by simpa [List.length_eq_zero] using h)]

theorem inventoryStep_of_empty (s : Store) (rng : Rng) (h : s.inventory = []) :
    inventoryStep s rng =
      ({ s with inventory := s.inventory ++
          (genInv rng (s.items.map (fun it => (it.id, it.min_stock)))
            (s.locations.map (·.id))).1 },
        (genInv rng (s.items.map (fun it => (it.id, it.min_stock)))
          (s.locations.map (·.id))).2) := by
  unfold inventoryStep
  rw [if_pos (by simp [h])]

theorem inventoryStep_locations (s : Store) (rng : Rng) :
    ((inventoryStep s rng).1).locations = s.locations := by
  unfold inventoryStep
  split <;> rfl

theorem inventoryStep_geo (s : Store) (rng : Rng) :
    ((inventoryStep s rng).1).location_geo = s.location_geo := by
  unfold inventoryStep
  split <;> rfl

theorem inventoryStep_items (s : Store) (rng : Rng) :
    ((inventoryStep s rng).1).items = s.items := by
  unfold inventoryStep
  split <;> rfl

theorem inventoryStep_suppliers (s : Store) (rng : Rng) :
    ((inventoryStep s rng).1).suppliers = s.suppliers := by
  unfold inventoryStep
  split <;> rfl

theorem inventoryStep_metrics (s : Store) (rng : Rng) :
    ((inventoryStep s rng).1).supplier_metrics = s.supplier_metrics := by
  unfold inventoryStep
  split <;> rfl

theorem inventoryStep_poct (s : Store) (rng : Rng) :
    ((inventoryStep s rng).1).poct_tests = s.poct_tests := by
  unfold inventoryStep
  split <;> rfl

theorem suppliersStep_skip (s : Store) (fk : FakerState) (h : s.suppliers ≠ []) :
    suppliersStep s fk = (s, fk) := by
  unfold suppliersStep
  rw [if_neg (by simpa [List.length_eq_zero] using h)]

theorem suppliersStep_of_empty (s : Store) (fk : FakerState) (h : s.suppliers = []) :
    suppliersStep s fk =
      ({ s with suppliers := s.suppliers ++ mkSuppliers (genSupplierNames fk 8).1 },
        (genSupplierNames fk 8).2) := by
  unfold suppliersStep
  rw [if_pos (by simp [h])]

theorem suppliersStep_locations (s : Store) (fk : FakerState) :
    ((suppliersStep s fk).1).locations = s.locations := by
  unfold suppliersStep
  split <;> rfl

theorem suppliersStep_geo (s : Store) (fk : FakerState) :
    ((suppliersStep s fk).1).location_geo = s.location_geo := by
  unfold suppliersStep
  split <;> rfl

theorem suppliersStep_items (s : Store) (fk : FakerState) :
    ((suppliersStep s fk).1).items = s.items := by
  unfold suppliersStep
  split <;> rfl

theorem suppliersStep_inventory (s : Store) (fk : FakerState) :
    ((suppliersStep s fk).1).inventory = s.inventory := by
  unfold suppliersStep
  split <;> rfl

theorem suppliersStep_metrics (s : Store) (fk : FakerState) :
    ((suppliersStep s fk).1).supplier_metrics = s.supplier_metrics := by
  unfold suppliersStep
  split <;> rfl

theorem suppliersStep_poct (s : Store) (fk : FakerState) :
    ((suppliersStep s fk).1).poct_tests = s.poct_tests := by
  unfold suppliersStep
  split <;> rfl

theorem metricsStep_skip (s : Store) (rng : Rng) (h : s.supplier_metrics ≠ []) :
    metricsStep s rng = (s, rng) := by
  unfold metricsStep
  rw [if_neg (by simpa [List.length_eq_zero] using h)]

theorem metricsStep_of_empty (s : Store) (rng : Rng) (h : s.supplier_metrics = []) :
    metricsStep s rng =
      ({ s with supplier_metrics := s.supplier_metrics ++
          (genMetrics rng (s.suppliers.map (·.id))).1 },
        (genMetrics rng (s.suppliers.map (·.id))).2) := by
  unfold metricsStep
  rw [if_pos (by simp [h])]

theorem metricsStep_locations (s : Store) (rng : Rng) :
    ((metricsStep s rng).1).locations = s.locations := by
  unfold metricsStep
  split <;> rfl

theorem metricsStep_geo (s : Store) (rng : Rng) :
    ((metricsStep s rng).1).location_geo = s.location_geo := by
  unfold metricsStep
  split <;> rfl

theorem metricsStep_items (s : Store) (rng : Rng) :
    ((metricsStep s rng).1).items = s.items := by
  unfold metricsStep
  split <;> rfl

theorem metricsStep_inventory (s : Store) (rng : Rng) :
    ((metricsStep s rng).1).inventory = s.inventory := by
  unfold metricsStep
  split <;> rfl

theorem metricsStep_suppliers (s : Store) (rng : Rng) :
    ((metricsStep s rng).1).suppliers = s.suppliers := by
  unfold metricsStep
  split <;> rfl

theorem metricsStep_poct (s : Store) (rng : Rng) :
    ((metricsStep s rng).1).poct_tests = s.poct_tests := by
  unfold metricsStep
  split <;> rfl

theorem poctStep_skip (today : ℕ) (s : Store) (rng : Rng) (h : s.poct_tests ≠ []) :
    poctStep today s rng = (s, rng) := by
  unfold poctStep
  rw [if_neg (by simpa [List.length_eq_zero] using h)]

theorem poctStep_poct_of_empty (today : ℕ) (s : Store) (rng : Rng)
    (h : s.poct_tests = []) :
    ((poctStep today s rng).1).poct_tests =
      (genPoct (firstOfMonth today - 365) (s.locations.map (·.id)) rng).1 := by
  unfold poctStep
  rw [if_pos (by simp [h])]
  dsimp only
  split
  · rw [insertBatches_eq, h]
    rfl
  · next hne =>
    simp only [ne_eq, Decidable.not_not, List.length_eq_zero] at hne
    rw [h, hne]

theorem poctStep_locations (today : ℕ) (s : Store) (rng : Rng) :
    ((poctStep today s rng).1).locations = s.locations := by
  unfold poctStep
  split
  · dsimp only
    split <;> rfl
  · rfl

theorem poctStep_geo (today : ℕ) (s : Store) (rng : Rng) :
    ((poctStep today s rng).1).location_geo = s.location_geo := by
  unfold poctStep
  split
  · dsimp only
    split <;> rfl
  · rfl

theorem poctStep_items (today : ℕ) (s : Store) (rng : Rng) :
    ((poctStep today s rng).1).items = s.items := by
  unfold poctStep
  split
  · dsimp only
    split <;> rfl
  · rfl

theorem poctStep_inventory (today : ℕ) (s : Store) (rng : Rng) :
    ((poctStep today s rng).1).inventory = s.inventory := by
  unfold poctStep
  split
  · dsimp only
    split <;> rfl
  · rfl

theorem poctStep_suppliers (today : ℕ) (s : Store) (rng : Rng) :
    ((poctStep today s rng).1).suppliers = s.suppliers := by
  unfold poctStep
  split
  · dsimp only
    split <;> rfl
  · rfl

theorem poctStep_metrics (today : ℕ) (s : Store) (rng : Rng) :
    ((poctStep today s rng).1).supplier_metrics = s.supplier_metrics := by
  unfold poctStep
  split
  · dsimp only
    split <;> rfl
  · rfl

end Healthcare

namespace Healthcare

/-- Collapsed form of the POCT step on an empty `poct_tests` table: both
sides of the row-count check and the batched insert reduce to appending
all generated rows. -/
theorem poctStep_of_empty (today : ℕ) (s : Store) (rng : Rng)
    (h : s.poct_tests = []) :
    poctStep today s rng =
      ({ s with poct_tests :=
          (genPoct (firstOfMonth today - 365) (s.locations.map (·.id)) rng).1 },
        (genPoct (firstOfMonth today - 365) (s.locations.map (·.id)) rng).2) := by
  unfold poctStep
  rw [if_pos (by simp [h])]
  dsimp only
  split
  · rw [h, insertBatches_eq]
    rfl
  · next hne =>
    simp only [ne_eq, Decidable.not_not, List.length_eq_zero] at hne
    rw [hne]
    obtain ⟨l1, l2, l3, l4, l5, l6, l7⟩ := s
    simp only at h
    rw [h]

theorem seed_core_locations_eq (seed num today : ℕ) (fk : FakerState) (s : Store) :
    ((seed_core seed num today fk s).1).locations
      = ((locationsStep num s fk (default_rng seed)).1).locations := by
  unfold seed_core
  dsimp only
  rw [poctStep_locations, metricsStep_locations, suppliersStep_locations,
    inventoryStep_locations, itemsStep_locations]

theorem seed_core_geo_eq (seed num today : ℕ) (fk : FakerState) (s : Store) :
    ((seed_core seed num today fk s).1).location_geo
      = ((locationsStep num s fk (default_rng seed)).1).location_geo := by
  unfold seed_core
  dsimp only
  rw [poctStep_geo, metricsStep_geo, suppliersStep_geo, inventoryStep_geo,
    itemsStep_geo]

theorem seed_core_items_eq (seed num today : ℕ) (fk : FakerState) (s : Store) :
    ((seed_core seed num today fk s).1).items
      = (itemsStep (locationsStep num s fk (default_rng seed)).1).items := by
  unfold seed_core
  dsimp only
  rw [poctStep_items, metricsStep_items, suppliersStep_items, inventoryStep_items]

/-- Membership in the metrics table after the metrics step: either an old
row or a generated one. -/
theorem metricsStep_mem (s : Store) (rng : Rng) (r : MetricRow)
    (hr : r ∈ ((metricsStep s rng).1).supplier_metrics) :
    r ∈ s.supplier_metrics ∨
      (r.performance_score =
        roundDp 1 (clip (0.7 * r.on_time_pct - 8 * r.defect_rate_pct
          - 1.5 * r.lead_time_days + 30) 0 100) ∧
       0 ≤ r.performance_score ∧ r.performance_score ≤ 100) := by
  by_cases h : s.supplier_metrics = []
  · rw [metricsStep_of_empty s rng h] at hr
    dsimp only at hr
    rcases List.mem_append.mp hr with h1 | h1
    · exact Or.inl h1
    · exact Or.inr (genMetrics_mem _ _ _ h1)
  · rw [metricsStep_skip s rng h] at hr
    exact Or.inl hr

/-- Membership in the geo table after the locations step: either an old
row or a generated in-bounds one. -/
theorem locationsStep_geo_mem (num : ℕ) (s : Store) (fk : FakerState) (rng : Rng)
    (r : GeoRow) (hr : r ∈ ((locationsStep num s fk rng).1).location_geo) :
    r ∈ s.location_geo ∨
      (((5.6 : ℚ) ≤ r.lat ∧ r.lat ≤ 20.5 ∧ r.lat = roundDp 6 r.lat) ∧
       ((97.4 : ℚ) ≤ r.lon ∧ r.lon ≤ 105.6 ∧ r.lon = roundDp 6 r.lon)) := by
  by_cases h : s.locations = []
  · rw [locationsStep_of_empty num s fk rng h] at hr
    dsimp only at hr
    rcases List.mem_append.mp hr with h1 | h1
    · exact Or.inl h1
    · exact Or.inr (genGeo_mem _ _ _ h1)
  · rw [locationsStep_skip num s fk rng h] at hr
    exact Or.inl hr

/-- Existing geo rows survive the locations step. -/
theorem locationsStep_geo_sup (num : ℕ) (s : Store) (fk : FakerState) (rng : Rng)
    (r : GeoRow) (hr : r ∈ s.location_geo) :
    r ∈ ((locationsStep num s fk rng).1).location_geo := by
  by_cases h : s.locations = []
  · rw [locationsStep_of_empty num s fk rng h]
    dsimp only
    exact List.mem_append_left _ hr
  · rw [locationsStep_skip num s fk rng h]
    exact hr

/-- Closed form of `seed_core` on a fresh empty store. -/
theorem seed_core_empty_eq (seed num today : ℕ) (fk : FakerState) :
    seed_core seed num today fk Store.empty =
      (⟨mkLocations (padNames num base_locations fk).1,
        (genGeo (default_rng seed)
          ((mkLocations (padNames num base_locations fk).1).map (·.id))).1,
        mkItems,
        (genInv (genGeo (default_rng seed)
            ((mkLocations (padNames num base_locations fk).1).map (·.id))).2
          (mkItems.map (fun it => (it.id, it.min_stock)))
          ((mkLocations (padNames num base_locations fk).1).map (·.id))).1,
        mkSuppliers (genSupplierNames (padNames num base_locations fk).2 8).1,
        (genMetrics
          (genInv (genGeo (default_rng seed)
              ((mkLocations (padNames num base_locations fk).1).map (·.id))).2
            (mkItems.map (fun it => (it.id, it.min_stock)))
            ((mkLocations (padNames num base_locations fk).1).map (·.id))).2
          ((mkSuppliers (genSupplierNames (padNames num base_locations fk).2 8).1).map
            (·.id))).1,
        (genPoct (firstOfMonth today - 365)
          ((mkLocations (padNames num base_locations fk).1).map (·.id))
          (genMetrics
            (genInv (genGeo (default_rng seed)
                ((mkLocations (padNames num base_locations fk).1).map (·.id))).2
              (mkItems.map (fun it => (it.id, it.min_stock)))
              ((mkLocations (padNames num base_locations fk).1).map (·.id))).2
            ((mkSuppliers (genSupplierNames (padNames num base_locations fk).2 8).1).map
              (·.id))).2).1⟩,
       (genSupplierNames (padNames num base_locations fk).2 8).2) := by
  unfold seed_core
  dsimp only
  rw [locationsStep_of_empty _ _ _ _ rfl]
  dsimp only
  rw [itemsStep_of_empty _ rfl]
  dsimp only
  rw [inventoryStep_of_empty _ _ rfl]
  dsimp only
  rw [suppliersStep_of_empty _ _ rfl]
  dsimp only
  rw [metricsStep_of_empty _ _ rfl]
  dsimp only
  rw [poctStep_of_empty _ _ _ rfl]
  simp only [Store.empty, List.nil_append]

end Healthcare

namespace Healthcare

/-! ### Witness fixtures -/

/-- A concrete ambient Faker state used in witnesses. -/
def fkW : FakerState := ⟨fun _ => "W", 0⟩

/-- A concrete fully-populated store used in witnesses. -/
def witStore : Store :=
  ⟨[⟨1, "Loc A", none⟩], [⟨1, 10, 100⟩], [⟨1, "Item A", 50, 100⟩],
   [⟨1, 1, 3⟩], [⟨1, "Sup A"⟩], [⟨1, 90, 1, 4, 80⟩], [⟨1, 700000, 6⟩]⟩

/-! ### Claim theorems -/

/-- C9: inserting the generated POCT rows in batches of 5000 yields exactly
the same final table contents as inserting all rows in a single operation;
the batch size has no effect on the set or order of stored rows. -/
theorem C9_batching_refinement (table rows : List PoctRow) :
    insertBatches 5000 table rows = insertAllAtOnce table rows :=
  insertBatches_eq table rows

/-- C5: invoking `seed_core` against a store in which every seeded table is
already non-empty is a no-op: the store (hence every table's row count) and
the ambient Faker state are unchanged. -/
theorem C5_second_run_noop (seed num today : ℕ) (fk : FakerState) (s : Store)
    (h1 : s.locations ≠ []) (h2 : s.items ≠ []) (h3 : s.inventory ≠ [])
    (h4 : s.suppliers ≠ []) (h5 : s.supplier_metrics ≠ [])
    (h6 : s.poct_tests ≠ []) :
    seed_core seed num today fk s = (s, fk) := by
  unfold seed_core
  dsimp only
  rw [locationsStep_skip _ _ _ _ h1]
  dsimp only
  rw [itemsStep_skip _ h2]
  rw [inventoryStep_skip _ _ h3]
  dsimp only
  rw [suppliersStep_skip _ _ h4]
  dsimp only
  rw [metricsStep_skip _ _ h5]
  dsimp only
  rw [poctStep_skip _ _ _ h6]

/-- Witness for C5 at a concrete populated store. -/
theorem C5_second_run_noop_witness :
    (witStore.locations ≠ [] ∧ witStore.items ≠ [] ∧ witStore.inventory ≠ [] ∧
     witStore.suppliers ≠ [] ∧ witStore.supplier_metrics ≠ [] ∧
     witStore.poct_tests ≠ []) ∧
    seed_core 42 100 739556 fkW witStore = (witStore, fkW) :=
  ⟨⟨by decide, by decide, by decide, by decide, by decide, by decide⟩,
   C5_second_run_noop 42 100 739556 fkW witStore (by decide) (by decide)
     (by decide) (by decide) (by decide) (by decide)⟩

/-- C3: every supplier_metrics row that `seed_core` writes (that is, every
row of the resulting table that was not already in the store) satisfies
`performance_score = round(clip(0.7*on_time_pct - 8*defect_rate_pct
- 1.5*lead_time_days + 30, 0, 100), 1)` and lies within `[0, 100]`. -/
theorem C3_performance_score_contract (seed num today : ℕ) (fk : FakerState)
    (s : Store) (r : MetricRow)
    (hr : r ∈ ((seed_core seed num today fk s).1).supplier_metrics) :
    r ∈ s.supplier_metrics ∨
      (r.performance_score = roundDp 1 (clip (0.7 * r.on_time_pct
          - 8 * r.defect_rate_pct - 1.5 * r.lead_time_days + 30) 0 100) ∧
       0 ≤ r.performance_score ∧ r.performance_score ≤ 100) := by
  unfold seed_core at hr
  dsimp only at hr
  rw [poctStep_metrics] at hr
  rcases metricsStep_mem _ _ _ hr with h | h
  · rw [suppliersStep_metrics, inventoryStep_metrics, itemsStep_metrics,
      locationsStep_metrics] at h
    exact Or.inl h
  · exact Or.inr h

/-- Witness for C3: the first metric row of a concrete seeded run. -/
theorem C3_performance_score_contract_witness :
    ∃ r ∈ ((seed_core 42 6 739556 fkW Store.empty).1).supplier_metrics,
      (r ∈ Store.empty.supplier_metrics ∨
        (r.performance_score = roundDp 1 (clip (0.7 * r.on_time_pct
            - 8 * r.defect_rate_pct - 1.5 * r.lead_time_days + 30) 0 100) ∧
         0 ≤ r.performance_score ∧ r.performance_score ≤ 100)) := by
  have hne : ((seed_core 42 6 739556 fkW Store.empty).1).supplier_metrics ≠ [] := by
    rw [seed_core_empty_eq]
    exact of_decide_eq_true (by with_unfolding_all rfl)
  exact ⟨_, List.head_mem hne,
    C3_performance_score_contract 42 6 739556 fkW Store.empty _ (List.head_mem hne)⟩

/-- C7: every geo row in the store after `seed_core` is either a
pre-existing row or a freshly generated row with `5.6 ≤ lat ≤ 20.5` and
`97.4 ≤ lon ≤ 105.6`, both rounded to 6 decimal places; and no geo row is
ever modified or deleted (every pre-existing row survives). -/
theorem C7_geo_invariant (seed num today : ℕ) (fk : FakerState) (s : Store) :
    (∀ r ∈ ((seed_core seed num today fk s).1).location_geo,
      r ∈ s.location_geo ∨
        (((5.6 : ℚ) ≤ r.lat ∧ r.lat ≤ 20.5 ∧ r.lat = roundDp 6 r.lat) ∧
         ((97.4 : ℚ) ≤ r.lon ∧ r.lon ≤ 105.6 ∧ r.lon = roundDp 6 r.lon))) ∧
    (∀ r ∈ s.location_geo, r ∈ ((seed_core seed num today fk s).1).location_geo) := by
  constructor
  · intro r hr
    rw [seed_core_geo_eq] at hr
    exact locationsStep_geo_mem _ _ _ _ _ hr
  · intro r hr
    rw [seed_core_geo_eq]
    exact locationsStep_geo_sup _ _ _ _ _ hr

/-- Witness for C7: a freshly generated geo row of a concrete run, and the
survival of a concrete pre-existing geo row. -/
theorem C7_geo_invariant_witness :
    (∃ r ∈ ((seed_core 42 6 739556 fkW Store.empty).1).location_geo,
      (r ∈ Store.empty.location_geo ∨
        (((5.6 : ℚ) ≤ r.lat ∧ r.lat ≤ 20.5 ∧ r.lat = roundDp 6 r.lat) ∧
         ((97.4 : ℚ) ≤ r.lon ∧ r.lon ≤ 105.6 ∧ r.lon = roundDp 6 r.lon)))) ∧
    (∃ r ∈ witStore.location_geo,
      r ∈ ((seed_core 42 100 739556 fkW witStore).1).location_geo) := by
  constructor
  · have hne : ((seed_core 42 6 739556 fkW Store.empty).1).location_geo ≠ [] := by
      rw [seed_core_empty_eq]
      exact of_decide_eq_true (by with_unfolding_all rfl)
    exact ⟨_, List.head_mem hne,
      (C7_geo_invariant 42 6 739556 fkW Store.empty).1 _ (List.head_mem hne)⟩
  · have hne : witStore.location_geo ≠ [] := by decide
    exact ⟨_, List.head_mem hne,
      (C7_geo_invariant 42 100 739556 fkW witStore).2 _ (List.head_mem hne)⟩

/-- C10: on an empty store the locations table receives exactly
`max num_locations 6` rows, and for `num_locations ≤ 6` it receives
exactly the six fixed base locations. -/
theorem C10_min_locations (seed num today : ℕ) (fk : FakerState) :
    (((seed_core seed num today fk Store.empty).1).locations).length = max num 6 ∧
    (num ≤ 6 → ((seed_core seed num today fk Store.empty).1).locations =
      [⟨1, "Bangkok Central", none⟩, ⟨2, "Chiang Mai North", none⟩,
       ⟨3, "Phuket South", none⟩, ⟨4, "Pattaya East", none⟩,
       ⟨5, "Khon Kaen Northeast", none⟩, ⟨6, "Hat Yai Deep South", none⟩]) := by
  have hloc : ((seed_core seed num today fk Store.empty).1).locations
      = mkLocations (padNames num base_locations fk).1 := by
    rw [seed_core_empty_eq]
  constructor
  · rw [hloc, mkLocations_length, padNames_length]
    rfl
  · intro h
    rw [hloc, padNames_of_le _ _ _ (by simp [base_locations]; omega)]
    rfl

/-- Witness for C10 at `num_locations = 4`. -/
theorem C10_min_locations_witness :
    (4 ≤ 6) ∧
    ((seed_core 42 4 739556 fkW Store.empty).1).locations =
      [⟨1, "Bangkok Central", none⟩, ⟨2, "Chiang Mai North", none⟩,
       ⟨3, "Phuket South", none⟩, ⟨4, "Pattaya East", none⟩,
       ⟨5, "Khon Kaen Northeast", none⟩, ⟨6, "Hat Yai Deep South", none⟩] :=
  ⟨by decide, (C10_min_locations 42 4 739556 fkW).2 (by decide)⟩

end Healthcare

namespace Healthcare

/-- A store whose locations table is populated but whose geo table is
empty: location 1 has no geo row. -/
def sPartial : Store :=
  ⟨[⟨1, "Bangkok Central", none⟩], [], [], [], [], [], [⟨1, 700000, 6⟩]⟩

/-- C2 (amended): each of the items, inventory, suppliers,
supplier_metrics and poct_tests sub-steps skips insertion when its own
target table is non-empty; the locations and geo sub-steps are jointly
guarded by the emptiness of the locations table alone: geo rows (one per
inserted location) are inserted exactly when the locations table was
empty, and a non-empty locations table leaves both tables untouched. -/
theorem C2_step_guards (seed num today : ℕ) (fk : FakerState) (s : Store) :
    (s.locations ≠ [] →
      ((seed_core seed num today fk s).1).locations = s.locations ∧
      ((seed_core seed num today fk s).1).location_geo = s.location_geo) ∧
    (s.locations = [] →
      ∃ g, ((seed_core seed num today fk s).1).location_geo = s.location_geo ++ g ∧
        g.map (·.location_id) = (((seed_core seed num today fk s).1).locations).map (·.id)) ∧
    (s.items ≠ [] → ((seed_core seed num today fk s).1).items = s.items) ∧
    (s.inventory ≠ [] → ((seed_core seed num today fk s).1).inventory = s.inventory) ∧
    (s.suppliers ≠ [] → ((seed_core seed num today fk s).1).suppliers = s.suppliers) ∧
    (s.supplier_metrics ≠ [] →
      ((seed_core seed num today fk s).1).supplier_metrics = s.supplier_metrics) ∧
    (s.poct_tests ≠ [] → ((seed_core seed num today fk s).1).poct_tests = s.poct_tests) := by
  refine ⟨?_, ?_, ?_, ?_, ?_, ?_, ?_⟩
  · intro h
    rw [seed_core_locations_eq, seed_core_geo_eq, locationsStep_skip _ _ _ _ h]
    exact ⟨rfl, rfl⟩
  · intro h
    rw [seed_core_locations_eq, seed_core_geo_eq, locationsStep_of_empty _ _ _ _ h]
    dsimp only
    refine ⟨_, rfl, ?_⟩
    rw [genGeo_keys]
  · intro h
    rw [seed_core_items_eq,
      itemsStep_skip _ (by rw [locationsStep_items]; exact h)]
    exact locationsStep_items _ _ _ _
  · intro h
    unfold seed_core
    dsimp only
    rw [poctStep_inventory, metricsStep_inventory, suppliersStep_inventory,
      inventoryStep_skip _ _
        (by rw [itemsStep_inventory, locationsStep_inventory]; exact h)]
    rw [itemsStep_inventory, locationsStep_inventory]
  · intro h
    unfold seed_core
    dsimp only
    rw [poctStep_suppliers, metricsStep_suppliers,
      suppliersStep_skip _ _
        (by rw [inventoryStep_suppliers, itemsStep_suppliers,
          locationsStep_suppliers]; exact h)]
    rw [inventoryStep_suppliers, itemsStep_suppliers, locationsStep_suppliers]
  · intro h
    unfold seed_core
    dsimp only
    rw [poctStep_metrics,
      metricsStep_skip _ _
        (by rw [suppliersStep_metrics, inventoryStep_metrics, itemsStep_metrics,
          locationsStep_metrics]; exact h)]
    rw [suppliersStep_metrics, inventoryStep_metrics, itemsStep_metrics,
      locationsStep_metrics]
  · intro h
    unfold seed_core
    dsimp only
    rw [poctStep_skip _ _ _
      (by rw [metricsStep_poct, suppliersStep_poct, inventoryStep_poct,
        itemsStep_poct, locationsStep_poct]; exact h)]
    rw [metricsStep_poct, suppliersStep_poct, inventoryStep_poct,
      itemsStep_poct, locationsStep_poct]

/-- Counterexample for C2 as stated: in a store where location 1 has no
geo row but the locations table is non-empty, `seed_core` inserts no geo
row at all (the geo sub-step is guarded by the locations table, not by its
own). -/
theorem C2_counterexample :
    (∃ l ∈ sPartial.locations, ∀ g ∈ sPartial.location_geo, g.location_id ≠ l.id) ∧
    ((seed_core 42 100 739556 fkW sPartial).1).location_geo = [] := by
  constructor
  · decide
  · rw [seed_core_geo_eq, locationsStep_skip _ _ _ _ (by decide)]
    rfl

/-- Witness for C2 at a fully populated store and at the empty store. -/
theorem C2_step_guards_witness :
    (witStore.locations ≠ [] ∧
      ((seed_core 42 100 739556 fkW witStore).1).locations = witStore.locations ∧
      ((seed_core 42 100 739556 fkW witStore).1).location_geo = witStore.location_geo) ∧
    (witStore.items ≠ [] ∧
      ((seed_core 42 100 739556 fkW witStore).1).items = witStore.items) ∧
    (witStore.inventory ≠ [] ∧
      ((seed_core 42 100 739556 fkW witStore).1).inventory = witStore.inventory) ∧
    (witStore.suppliers ≠ [] ∧
      ((seed_core 42 100 739556 fkW witStore).1).suppliers = witStore.suppliers) ∧
    (witStore.supplier_metrics ≠ [] ∧
      ((seed_core 42 100 739556 fkW witStore).1).supplier_metrics
        = witStore.supplier_metrics) ∧
    (witStore.poct_tests ≠ [] ∧
      ((seed_core 42 100 739556 fkW witStore).1).poct_tests = witStore.poct_tests) ∧
    (Store.empty.locations = [] ∧
      ∃ g, ((seed_core 42 6 739556 fkW Store.empty).1).location_geo
            = Store.empty.location_geo ++ g ∧
        g.map (·.location_id)
          = (((seed_core 42 6 739556 fkW Store.empty).1).locations).map (·.id)) :=
  ⟨⟨by decide, (C2_step_guards 42 100 739556 fkW witStore).1 (by decide)⟩,
   ⟨by decide, (C2_step_guards 42 100 739556 fkW witStore).2.2.1 (by decide)⟩,
   ⟨by decide, (C2_step_guards 42 100 739556 fkW witStore).2.2.2.1 (by decide)⟩,
   ⟨by decide, (C2_step_guards 42 100 739556 fkW witStore).2.2.2.2.1 (by decide)⟩,
   ⟨by decide, (C2_step_guards 42 100 739556 fkW witStore).2.2.2.2.2.1 (by decide)⟩,
   ⟨by decide, (C2_step_guards 42 100 739556 fkW witStore).2.2.2.2.2.2 (by decide)⟩,
   ⟨rfl, (C2_step_guards 42 6 739556 fkW Store.empty).2.1 rfl⟩⟩

end Healthcare

namespace Healthcare

/-- C8: every inventory row written by `seed_core` into an empty store has
a stock drawn from `[max 0 (min_stock - 120), min_stock + 300)` for its
item's `min_stock`, and in particular `current_stock ≥ 0`. -/
theorem C8_inventory_bounds (seed num today : ℕ) (fk : FakerState)
    (r : InventoryRow)
    (hr : r ∈ ((seed_core seed num today fk Store.empty).1).inventory) :
    0 ≤ r.current_stock ∧
    ∃ it ∈ ((seed_core seed num today fk Store.empty).1).items,
      r.item_id = it.id ∧ max 0 (it.min_stock - 120) ≤ r.current_stock ∧
      r.current_stock < it.min_stock + 300 := by
  have hcat : ∀ it ∈ mkItems, (-300 : ℤ) < it.min_stock := by decide
  rw [seed_core_empty_eq] at hr
  obtain ⟨h0, hloc, q, hq, hid, hbound⟩ := genInv_mem _ _ _ _ hr
  obtain ⟨it, hit, hq'⟩ := List.mem_map.mp hq
  have hgt : (-300 : ℤ) < q.2 := by
    rw [← hq']
    exact hcat it hit
  obtain ⟨hb1, hb2⟩ := hbound hgt
  refine ⟨h0, it, ?_, ?_, ?_, ?_⟩
  · rw [seed_core_empty_eq]
    exact hit
  · rw [hid, ← hq']
  · rw [← hq'] at hb1
    exact hb1
  · rw [← hq'] at hb2
    exact hb2

/-- Witness for C8 at the first inventory row of a concrete seeded run. -/
theorem C8_inventory_bounds_witness :
    ∃ r ∈ ((seed_core 42 6 739556 fkW Store.empty).1).inventory,
      0 ≤ r.current_stock ∧
      ∃ it ∈ ((seed_core 42 6 739556 fkW Store.empty).1).items,
        r.item_id = it.id ∧ max 0 (it.min_stock - 120) ≤ r.current_stock ∧
        r.current_stock < it.min_stock + 300 := by
  have hne : ((seed_core 42 6 739556 fkW Store.empty).1).inventory ≠ [] := by
    rw [seed_core_empty_eq]
    exact of_decide_eq_true (by with_unfolding_all rfl)
  exact ⟨_, List.head_mem hne,
    C8_inventory_bounds 42 6 739556 fkW _ (List.head_mem hne)⟩

end Healthcare

namespace Healthcare

/-- C4 (amended): for every current date (any day number from 731 on,
covering all dates `date.today()` can return in practice), every POCT row
inserted into an empty store has a test date of the form
`firstOfMonth (firstOfMonth today - 365) + 30 * m + d` with `m < 12`,
`d < 28` — the synthetic months are aligned to the first day of the month
containing the day 365 days before the first of the current month — and
therefore lies within `[today - 396, today]`.  The slack is 396 days, not
395: up to 30 for the current day-of-month, 365 for the year, and 1 more
when the subtracted year crosses a leap day. -/
theorem C4_poct_window (seed num today : ℕ) (fk : FakerState)
    (h : 731 ≤ today) (r : PoctRow)
    (hr : r ∈ ((seed_core seed num today fk Store.empty).1).poct_tests) :
    (∃ m < 12, ∃ d < 28,
      r.test_date = firstOfMonth (firstOfMonth today - 365) + 30 * m + d) ∧
    today - 396 ≤ r.test_date ∧ r.test_date ≤ today := by
  rw [seed_core_empty_eq] at hr
  obtain ⟨hlid, m, hm, d, hd, hdate⟩ := genPoct_mem _ _ _ _ hr
  obtain ⟨hlow, hup⟩ := poct_window today h
  exact ⟨⟨m, hm, d, hd, hdate⟩, by omega, by omega⟩

set_option maxRecDepth 200000 in
/-- Witness for C4 at the first generated POCT row on 2026-10-12
(day number 740206). -/
theorem C4_poct_window_witness :
    (731 ≤ 740206 ∧ daysFromCivil 2026 10 12 = 740206) ∧
    ∃ r ∈ ((seed_core 42 6 740206 fkW Store.empty).1).poct_tests,
      (∃ m < 12, ∃ d < 28,
        r.test_date = firstOfMonth (firstOfMonth 740206 - 365) + 30 * m + d) ∧
      740206 - 396 ≤ r.test_date ∧ r.test_date ≤ 740206 := by
  refine ⟨⟨by decide, by decide⟩, ?_⟩
  have hne : ((seed_core 42 6 740206 fkW Store.empty).1).poct_tests ≠ [] := by
    rw [seed_core_empty_eq]
    exact of_decide_eq_true (by with_unfolding_all rfl)
  exact ⟨_, List.head_mem hne,
    C4_poct_window 42 6 740206 fkW (by decide) _ (List.head_mem hne)⟩

set_option maxRecDepth 200000 in
/-- Counterexample for C4 as stated: on 2024-12-31 (day number 739556,
`daysFromCivil 2024 12 31`), the generation window reaches 396 days back,
so a generated row violates the claimed `[today - 395, today]` bound. -/
theorem C4_counterexample :
    daysFromCivil 2024 12 31 = 739556 ∧
    ∃ r ∈ ((seed_core 42 6 739556 fkW Store.empty).1).poct_tests,
      r.test_date + 395 < 739556 := by
  refine ⟨by decide, ?_⟩
  rw [seed_core_empty_eq]
  dsimp only
  refine ⟨_, List.head_mem ?hne, ?_⟩
  case hne => exact of_decide_eq_true (by with_unfolding_all rfl)
  exact of_decide_eq_true (by with_unfolding_all rfl)

end Healthcare

namespace Healthcare

theorem mkSuppliers_length (names : List String) :
    (mkSuppliers names).length = names.length := by
  simp [mkSuppliers]

theorem ids_nodup (n : ℕ) : ((List.range n).map (· + 1)).Nodup :=
  (List.nodup_range n).map (fun h => by omega)

theorem filter_id_length_one (l : List ℕ) (a : ℕ) (h : l.Nodup) (ha : a ∈ l) :
    (l.filter (fun x => x = a)).length = 1 := by
  induction l with
  | nil => simp at ha
  | cons x t ih =>
    rw [List.nodup_cons] at h
    rcases List.mem_cons.mp ha with rfl | hat
    · have hnil : t.filter (fun y => y = a) = [] :=
        List.filter_eq_nil_iff.mpr (fun y hy => by
          simp only [decide_eq_true_eq]
          intro hyx
          exact h.1 (hyx ▸ hy))
      simp [List.filter_cons, hnil]
    · have hxa : x ≠ a := fun hxa => h.1 (hxa ▸ hat)
      simp only [List.filter_cons, decide_eq_true_eq, hxa, if_false]
      exact ih h.2 hat

theorem genGeo_filter (rng : Rng) (lids : List ℕ) (a : ℕ) :
    (((genGeo rng lids).1).filter (fun g => g.location_id = a)).length
      = (lids.filter (fun x => x = a)).length := by
  induction lids generalizing rng with
  | nil => simp [genGeo]
  | cons x t ih =>
    by_cases h : x = a
    · simp [genGeo, List.filter_cons, h, ih]
    · simp [genGeo, List.filter_cons, h, ih]

theorem genMetrics_filter (rng : Rng) (sids : List ℕ) (a : ℕ) :
    (((genMetrics rng sids).1).filter (fun r => r.supplier_id = a)).length
      = (sids.filter (fun x => x = a)).length := by
  induction sids generalizing rng with
  | nil => simp [genMetrics]
  | cons x t ih =>
    by_cases h : x = a
    · simp [genMetrics, List.filter_cons, h, ih]
    · simp [genMetrics, List.filter_cons, h, ih]

theorem genInvForLoc_filter (rng : Rng) (lid : ℕ) (itemData : List (ℕ × ℤ))
    (a b : ℕ) :
    (((genInvForLoc rng lid itemData).1).filter
      (fun r => r.location_id = a ∧ r.item_id = b)).length
      = if lid = a then (itemData.filter (fun q => q.1 = b)).length else 0 := by
  induction itemData generalizing rng with
  | nil => simp [genInvForLoc]
  | cons q t ih =>
    simp only [Bool.decide_and] at ih ⊢
    by_cases h1 : lid = a
    · subst h1
      by_cases h2 : q.1 = b
      · simp [genInvForLoc, List.filter_cons, h2, ih]
      · simp [genInvForLoc, List.filter_cons, h2, ih]
    · simp only [genInvForLoc, List.filter_cons, h1, ih, if_false]
      simp [h1, List.filter_eq_nil_iff]
      intro r hr hra
      obtain ⟨-, hlid, -⟩ := genInvForLoc_mem _ _ _ _ hr
      rw [hlid] at hra
      exact absurd hra h1

theorem genInv_filter (rng : Rng) (itemData : List (ℕ × ℤ)) (lids : List ℕ)
    (a b : ℕ) :
    (((genInv rng itemData lids).1).filter
      (fun r => r.location_id = a ∧ r.item_id = b)).length
      = (lids.filter (fun x => x = a)).length
        * (itemData.filter (fun q => q.1 = b)).length := by
  induction lids generalizing rng with
  | nil => simp [genInv]
  | cons x t ih =>
    simp only [genInv, List.filter_append, List.length_append,
      genInvForLoc_filter, ih, List.filter_cons]
    by_cases h : x = a
    · simp only [h, if_true, decide_eq_true_eq, if_pos rfl, List.length_cons]
      ring
    · simp [h]


end Healthcare

namespace Healthcare

/-- The item catalog has exactly 5 rows. -/
theorem mkItems_length_eq : mkItems.length = 5 := rfl

/-- Each item id keys exactly one `(id, min_stock)` pair of the catalog. -/
theorem mkItems_pair_filter :
    ∀ j ∈ mkItems,
      (((mkItems.map (fun k => (k.id, k.min_stock))).filter
        (fun q => q.1 = j.id))).length = 1 := by decide

end Healthcare

namespace Healthcare

/-- C6: after seeding an empty store with the default parameters (seed 42,
100 locations): at least 100 locations, exactly 5 items, inventory of size
locations × items with exactly one row per (location, item) pair, exactly
8 suppliers, exactly one metric row per supplier, and exactly one geo row
per location. -/
theorem C6_default_counts (today : ℕ) (fk : FakerState) :
    100 ≤ (seed_core 42 100 today fk Store.empty).1.locations.length ∧
    (seed_core 42 100 today fk Store.empty).1.items.length = 5 ∧
    (seed_core 42 100 today fk Store.empty).1.inventory.length
      = (seed_core 42 100 today fk Store.empty).1.locations.length
        * (seed_core 42 100 today fk Store.empty).1.items.length ∧
    (∀ l ∈ (seed_core 42 100 today fk Store.empty).1.locations,
      ∀ it ∈ (seed_core 42 100 today fk Store.empty).1.items,
      ((seed_core 42 100 today fk Store.empty).1.inventory.filter
        (fun r => r.location_id = l.id ∧ r.item_id = it.id)).length = 1) ∧
    (seed_core 42 100 today fk Store.empty).1.suppliers.length = 8 ∧
    (∀ sup ∈ (seed_core 42 100 today fk Store.empty).1.suppliers,
      ((seed_core 42 100 today fk Store.empty).1.supplier_metrics.filter
        (fun r => r.supplier_id = sup.id)).length = 1) ∧
    (∀ l ∈ (seed_core 42 100 today fk Store.empty).1.locations,
      ((seed_core 42 100 today fk Store.empty).1.location_geo.filter
        (fun g => g.location_id = l.id)).length = 1) := by
  rewrite [seed_core_empty_eq]
  dsimp only
  have hnodup_lids :
      ((mkLocations (padNames 100 base_locations fk).1).map (·.id)).Nodup := by
    rewrite [mkLocations_ids, padNames_length]
    exact ids_nodup _
  have hsupIds : ((mkSuppliers
        (genSupplierNames (padNames 100 base_locations fk).2 8).1).map (·.id)).Nodup := by
    rewrite [mkSuppliers_ids, genSupplierNames_length]
    exact ids_nodup 8
  refine ⟨?_, ?_, ?_, ?_, ?_, ?_, ?_⟩
  · rewrite [mkLocations_length, padNames_length]
    exact le_max_left _ _
  · exact mkItems_length_eq
  · rewrite [genInv_length]
    simp only [List.length_map]
  · intro l hl it hit
    rewrite [genInv_filter]
    have h1 : ((((mkLocations (padNames 100 base_locations fk).1).map (·.id)).filter
        (fun x => x = l.id))).length = 1 :=
      filter_id_length_one _ _ hnodup_lids (List.mem_map_of_mem (·.id) hl)
    have h2 := mkItems_pair_filter it hit
    rewrite [h1, h2]
    exact Nat.one_mul 1
  · rewrite [mkSuppliers_length, genSupplierNames_length]
    rfl
  · intro sup hsupmem
    rewrite [genMetrics_filter]
    exact filter_id_length_one _ _ hsupIds (List.mem_map_of_mem (·.id) hsupmem)
  · intro l hl
    rewrite [genGeo_filter]
    exact filter_id_length_one _ _ hnodup_lids (List.mem_map_of_mem (·.id) hl)

end Healthcare

namespace Healthcare

/-! ### C1: determinism of `seed_core` and the ambient Faker names -/

/-- Erase the name strings drawn from the module-level `Faker()` instance:
location and supplier names are replaced by `""`; every other column of
every table is kept unchanged. -/
def Store.scrubNames (s : Store) : Store :=
  { s with
    locations := s.locations.map (fun l => (⟨l.id, "", l.region⟩ : LocationRow)),
    suppliers := s.suppliers.map (fun r => (⟨r.id, ""⟩ : SupplierRow)) }

/-- Scrubbed location rows depend only on how many names were supplied. -/
theorem mkLocations_scrub (names : List String) :
    (mkLocations names).map (fun l => (⟨l.id, "", l.region⟩ : LocationRow))
      = (List.range names.length).map (fun i => (⟨i + 1, "", none⟩ : LocationRow)) := by
  unfold mkLocations
  rw [List.map_map]
  have : ((fun l : LocationRow => (⟨l.id, "", l.region⟩ : LocationRow)) ∘
      fun p : ℕ × String => (⟨p.1 + 1, p.2, none⟩ : LocationRow))
      = (fun i => (⟨i + 1, "", none⟩ : LocationRow)) ∘ Prod.fst := rfl
  rw [this, ← List.map_map, List.enum_map_fst]

/-- Scrubbed supplier rows depend only on how many names were supplied. -/
theorem mkSuppliers_scrub (names : List String) :
    (mkSuppliers names).map (fun r => (⟨r.id, ""⟩ : SupplierRow))
      = (List.range names.length).map (fun i => (⟨i + 1, ""⟩ : SupplierRow)) := by
  unfold mkSuppliers
  rw [List.map_map]
  have : ((fun r : SupplierRow => (⟨r.id, ""⟩ : SupplierRow)) ∘
      fun q : ℕ × String => (⟨q.1 + 1, q.2⟩ : SupplierRow))
      = (fun i => (⟨i + 1, ""⟩ : SupplierRow)) ∘ Prod.fst := rfl
  rw [this, ← List.map_map, List.enum_map_fst]

/-- C1 (amended): for a fixed seed, two `seed_core` runs on freshly created
empty stores — under arbitrary, possibly different, states of the unseeded
module-level `Faker()` — produce identical rows in every table and every
column except the Faker-drawn location and supplier name strings.  The
original byte-identical claim fails only on those name columns. -/
theorem C1_determinism_modulo_names (seed num today : ℕ) (fk1 fk2 : FakerState) :
    ((seed_core seed num today fk1 Store.empty).1).scrubNames
      = ((seed_core seed num today fk2 Store.empty).1).scrubNames := by
  rewrite [seed_core_empty_eq, seed_core_empty_eq]
  dsimp only [Store.scrubNames]
  simp only [Store.mk.injEq]
  refine ⟨?_, ?_, trivial, ?_, ?_, ?_, ?_⟩
  · rewrite [mkLocations_scrub, mkLocations_scrub, padNames_length, padNames_length]
    rfl
  · rewrite [mkLocations_ids, mkLocations_ids, padNames_length, padNames_length]
    rfl
  · rewrite [mkLocations_ids, mkLocations_ids, padNames_length, padNames_length]
    rfl
  · rewrite [mkSuppliers_scrub, mkSuppliers_scrub,
      genSupplierNames_length, genSupplierNames_length]
    rfl
  · rewrite [mkSuppliers_ids, mkSuppliers_ids,
      genSupplierNames_length, genSupplierNames_length,
      mkLocations_ids, mkLocations_ids, padNames_length, padNames_length]
    rfl
  · rewrite [mkSuppliers_ids, mkSuppliers_ids,
      genSupplierNames_length, genSupplierNames_length,
      mkLocations_ids, mkLocations_ids, padNames_length, padNames_length]
    rfl

/-- A second concrete ambient Faker state, drawing names different from
`fkW`'s. -/
def fkV : FakerState := ⟨fun _ => "V", 0⟩

/-- C1 counterexample: with the same seed and arguments, two runs on fresh
empty stores under different ambient Faker states produce different
supplier name columns, so the two stores are not byte-identical. -/
theorem C1_counterexample :
    (seed_core 42 6 739556 fkW Store.empty).1
      ≠ (seed_core 42 6 739556 fkV Store.empty).1 := by
  intro h
  have h2 := congrArg (fun s : Store => s.suppliers.map (fun r => r.name)) h
  rewrite [seed_core_empty_eq, seed_core_empty_eq] at h2
  dsimp only at h2
  exact absurd h2 (of_decide_eq_true (by with_unfolding_all rfl))

end Healthcare
